import Mathlib

/-!
Verification of the `train` entry-point script of the
sagemaker_portability_workshop repository (a container entry point that
reads a JSON hyperparameter file, shells out to a training script,
copies files to and from object storage, and writes an error file on
failure), together with the SDK-call order of the demonstration
notebook.

The Python source is embedded shallowly: the filesystem, the object
store, the subprocess and the JSON parser are modelled by an
environment record supplying their observable results, and the script
is a pure function from that environment to a trace of its effects
(directories created, files downloaded and uploaded, the training
command built, the failure file written, the termination status).
-/

/-- A JSON value as produced by Python json.load.  Numbers are modelled
as integers (the hyperparameter files of this repository contain only
strings and integers); booleans, null, arrays and objects are carried
so that non-string hyperparameter values are representable. -/
inductive JVal where
  | str (s : String)
  | num (n : Int)
  | boolv (b : Bool)
  | null
  | arr (elems : List JVal)
  | obj (fields : List (String × JVal))

/-- Whether a Python value is a str.  subprocess.Popen accepts a list
argument only when every element is str (or bytes or os.PathLike);
any other element raises TypeError. -/
def JVal.isStr : JVal → Bool
  | .str _ => true
  | _ => false

/-- s.startswith(sep) for the one-character path separator: whether
the first character is a slash (absolute path test of os.path.join). -/
def firstCharIsSlash (s : String) : Bool :=
  match s.data with
  | [] => false
  | c :: _ => c = '/'

/-- s.endswith(sep): whether the last character is a slash. -/
def lastCharIsSlash (s : String) : Bool :=
  match s.data.getLast? with
  | none => false
  | some c => c = '/'

/-- os.path.join for two components, as used by the script: if the
second component is absolute it wins; otherwise a separator is added
unless the first component already ends in one. -/
def osPathJoin (a b : String) : String :=
  if firstCharIsSlash b then b
  else if a = "" then b
  else if lastCharIsSlash a then a ++ b
  else a ++ "/" ++ b

/-- str.split(sep) for the one-character path separator, on the
character list of the string. -/
def splitSlashAux : List Char → List Char → List String
  | [], acc => [String.mk acc.reverse]
  | c :: cs, acc =>
      if c = '/' then String.mk acc.reverse :: splitSlashAux cs []
      else splitSlashAux cs (c :: acc)

/-- file.split(sep): Python string split on the slash separator. -/
def pySplitSlash (s : String) : List String := splitSlashAux s.data []

/-- file.split(sep)[-1]: the last component of a path string, the
basename used for the upload keys. -/
def pyLastComponent (s : String) : String :=
  (pySplitSlash s).getLastD ""

/-- The source's `prefix` constant: where SageMaker mounts things in
the container. -/
def mlRoot : String := "/opt/ml/"

def input_path : String := osPathJoin mlRoot "input/data"

def output_path : String := osPathJoin mlRoot "output"

def model_path : String := osPathJoin mlRoot "model"

def param_path : String := osPathJoin mlRoot "input/config/hyperparameters.json"

/-- The single input channel of this algorithm. -/
def channel_name : String := "training"

def training_path : String := osPathJoin input_path channel_name

def training_script : String := "cifar10.py"

def default_params : List String := ["--model-dir", model_path]

/-- _hyperparameters_to_cmd_args: converts the hyperparameters object
(in JSON iteration order) into a command argument list by appending,
for each key-value pair, the formatted flag and then the raw value. -/
def _hyperparameters_to_cmd_args (hyperparameters : List (String × JVal)) : List JVal :=
  hyperparameters.foldl
    (fun cmd_args_list kv => cmd_args_list ++ [JVal.str ("--" ++ kv.fst), kv.snd]) []

mutual

/-- Python repr of a JSON value, as interpolated into the _run error
message (escaping of special characters inside strings is elided). -/
def jvalRepr : JVal → String
  | JVal.str s => "\x27" ++ s ++ "\x27"
  | JVal.num n => toString n
  | JVal.boolv b => if b then "True" else "False"
  | JVal.null => "None"
  | JVal.arr xs => "[" ++ jvalListRepr xs ++ "]"
  | JVal.obj kvs => "\x7b" ++ jvalObjRepr kvs ++ "\x7d"

/-- Comma-separated reprs of the elements of a Python list. -/
def jvalListRepr : List JVal → String
  | [] => ""
  | [x] => jvalRepr x
  | x :: y :: xs => jvalRepr x ++ ", " ++ jvalListRepr (y :: xs)

/-- Comma-separated reprs of the entries of a Python dict. -/
def jvalObjRepr : List (String × JVal) → String
  | [] => ""
  | [(k, v)] => "\x27" ++ k ++ "\x27: " ++ jvalRepr v
  | (k, v) :: kv :: kvs => "\x27" ++ k ++ "\x27: " ++ jvalRepr v ++ ", " ++ jvalObjRepr (kv :: kvs)

end

/-- Python repr of a list, as produced by formatting cmd into the
_run error message. -/
def pyListRepr (xs : List JVal) : String := "[" ++ jvalListRepr xs ++ "]"

/-- The Python type name of a JSON value, as it appears in the
TypeError message raised by subprocess.Popen on a non-string argv
element. -/
def jvalTypeName : JVal → String
  | JVal.str _ => "str"
  | JVal.num _ => "int"
  | JVal.boolv _ => "bool"
  | JVal.null => "NoneType"
  | JVal.arr _ => "list"
  | JVal.obj _ => "dict"

/-- The exceptions the script can raise inside the main try block. -/
inductive PyExc where
  /-- subprocess.Popen rejecting a non-string element of the argv list. -/
  | typeError (v : JVal)
  /-- The Exception raised by _run when the subprocess exits nonzero. -/
  | trainFailed (returnCode : Int) (cmd : List JVal) (stderrText : String)
  /-- json.load failing on the hyperparameters file. -/
  | jsonError (msg : String)
  /-- listdir(...)[0] or glob(...)[0] on an empty list in the upload block. -/
  | indexError

/-- str(e) for each modelled exception.  For trainFailed this is the
message built in _run: "Return Code: ..., CMD: ..., Err: ...", where
stderr (a bytes object) formats with the b-quote. -/
def pyExcMessage : PyExc → String
  | PyExc.typeError v =>
      "expected str, bytes or os.PathLike object, not " ++ jvalTypeName v
  | PyExc.trainFailed rc cmd stderrText =>
      "Return Code: " ++ toString rc ++ ", CMD: " ++ pyListRepr cmd
        ++ ", Err: b\x27" ++ stderrText ++ "\x27"
  | PyExc.jsonError m => m
  | PyExc.indexError => "list index out of range"

/-- _run: invokes the training algorithm.  Popen raises TypeError on
the first non-string element of cmd; otherwise the subprocess runs and
_run raises exactly when its return code is nonzero. -/
def _run (cmd : List JVal) (returnCode : Int) (stderrText : String) : Except PyExc Unit :=
  match cmd.find? (fun v => !v.isStr) with
  | some v => Except.error (PyExc.typeError v)
  | none =>
      if returnCode ≠ 0 then
        Except.error (PyExc.trainFailed returnCode cmd stderrText)
      else
        Except.ok ()

/-- The content of s3keys.json: the bucket and key prefix of the
training data used by the manual (bare-VM) variant. -/
structure S3Keys where
  bucket : String
  datakey : String
  deriving DecidableEq

/-- One s3.download_file call: (bucket, key, local filename). -/
structure S3Download where
  bucket : String
  key : String
  localPath : String
  deriving DecidableEq

/-- One s3.upload_file call: (local filename, bucket, key). -/
structure S3Upload where
  localPath : String
  bucket : String
  key : String
  deriving DecidableEq

/-- The statements of the module-level bootstrap block, in program
order; used to name the step at which an exception, if any, occurs. -/
inductive BStep where
  | readKeys
  | mkOutput
  | mkInput
  | mkModel
  | mkConfig
  | mkData
  | mkTraining
  | dlEval
  | dlTrain
  | dlValidation
  deriving DecidableEq

/-- The runtime environment of one run of the script: the observable
results of the filesystem, the JSON parser, the subprocess and the
object store. -/
structure Env where
  /-- os.path.isdir of the /opt/ml/input directory at startup. -/
  optMlInputDirExists : Bool
  /-- The first bootstrap statement to raise, if any (only relevant
  when the bootstrap block runs). -/
  bootstrapFail : Option BStep
  /-- The parsed content of s3keys.json. -/
  s3keys : S3Keys
  /-- The result of json.load on /opt/ml/input/config/hyperparameters.json:
  either an error message or the object's key-value pairs in iteration
  order. -/
  hyperparamsLoad : Except String (List (String × JVal))
  /-- sys.executable. -/
  pythonExecutable : String
  /-- The exit status of the training subprocess, when it is spawned. -/
  returnCode : Int
  /-- The stderr captured from the training subprocess. -/
  stderrText : String
  /-- traceback.format_exc() at the exception handler. -/
  tracebackText : String
  /-- The result of glob of the /opt/ml/model directory contents. -/
  modelEntries : List String
  /-- os.listdir of /opt/ml/model/export/Servo. -/
  servoDirs : List String
  /-- glob of the .pb files under /opt/ml/model/export/Servo/(dir). -/
  servoPb : String → List String

/-- The effects of the bootstrap block. -/
structure BootstrapOut where
  s3Constructed : Bool
  dirsCreated : List String
  downloads : List S3Download
  movedHyperparams : Option (String × String)
  ec2 : Option Bool
  exc : Option BStep

/-- The six os.mkdir calls of the bootstrap block, in program order. -/
def bootstrapDirs : List String :=
  ["/opt/ml/output", "/opt/ml/input", "/opt/ml/model",
   "/opt/ml/input/config", "/opt/ml/input/data", "/opt/ml/input/data/training"]

/-- The three s3.download_file calls of the bootstrap block, in
program order. -/
def bootstrapDownloads (keys : S3Keys) : List S3Download :=
  [⟨keys.bucket, keys.datakey ++ "/eval.tfrecords",
      "/opt/ml/input/data/training/eval.tfrecords"⟩,
   ⟨keys.bucket, keys.datakey ++ "/train.tfrecords",
      "/opt/ml/input/data/training/train.tfrecords"⟩,
   ⟨keys.bucket, keys.datakey ++ "/validation.tfrecords",
      "/opt/ml/input/data/training/validation.tfrecords"⟩]

/-- The module-level bootstrap: skipped entirely when /opt/ml/input is
a directory; otherwise it constructs the S3 client, reads s3keys.json,
creates the six directories, downloads the three TFRecord files, moves
the hyperparameters file into place and sets ec2 = True.  An exception
at any step keeps the effects of the earlier steps and propagates
(there is no handler at module level). -/
def bootstrap (env : Env) : BootstrapOut :=
  if env.optMlInputDirExists then
    ⟨false, [], [], none, none, none⟩
  else
    match env.bootstrapFail with
    | some BStep.readKeys => ⟨true, [], [], none, none, some BStep.readKeys⟩
    | some BStep.mkOutput => ⟨true, bootstrapDirs.take 0, [], none, none, some BStep.mkOutput⟩
    | some BStep.mkInput => ⟨true, bootstrapDirs.take 1, [], none, none, some BStep.mkInput⟩
    | some BStep.mkModel => ⟨true, bootstrapDirs.take 2, [], none, none, some BStep.mkModel⟩
    | some BStep.mkConfig => ⟨true, bootstrapDirs.take 3, [], none, none, some BStep.mkConfig⟩
    | some BStep.mkData => ⟨true, bootstrapDirs.take 4, [], none, none, some BStep.mkData⟩
    | some BStep.mkTraining => ⟨true, bootstrapDirs.take 5, [], none, none, some BStep.mkTraining⟩
    | some BStep.dlEval =>
        ⟨true, bootstrapDirs, (bootstrapDownloads env.s3keys).take 0, none, none, some BStep.dlEval⟩
    | some BStep.dlTrain =>
        ⟨true, bootstrapDirs, (bootstrapDownloads env.s3keys).take 1, none, none, some BStep.dlTrain⟩
    | some BStep.dlValidation =>
        ⟨true, bootstrapDirs, (bootstrapDownloads env.s3keys).take 2, none, none, some BStep.dlValidation⟩
    | none =>
        ⟨true, bootstrapDirs, bootstrapDownloads env.s3keys,
         some ("/opt/ml/code/hyperparameters.json", "/opt/ml/input/config"), some true, none⟩

/-- One iteration of the upload loop over an entry of the model
directory: entries other than eval and export are uploaded under
cifar_results with their basename as key; for the export entry the
first .pb file of the first Servo subdirectory is uploaded; the eval
entry matches neither branch and contributes nothing.  Indexing an
empty listdir or glob result raises IndexError. -/
def uploadOne (env : Env) (file : String) : Except PyExc (List S3Upload) :=
  if file ∉ ["/opt/ml/model/eval", "/opt/ml/model/export"] then
    Except.ok [⟨osPathJoin model_path file, env.s3keys.bucket,
                "cifar_results/" ++ pyLastComponent file⟩]
  else if file = "/opt/ml/model/export" then
    match env.servoDirs with
    | [] => Except.error PyExc.indexError
    | d :: _ =>
        match env.servoPb d with
        | [] => Except.error PyExc.indexError
        | pb :: _ =>
            Except.ok [⟨pb, env.s3keys.bucket, "cifar_results/" ++ pyLastComponent pb⟩]
  else
    Except.ok []

/-- The upload loop over the model directory entries: uploads
accumulate in order until an exception, which abandons the rest of the
loop. -/
def uploadLoop (env : Env) : List String → List S3Upload × Option PyExc
  | [] => ([], none)
  | f :: fs =>
    match uploadOne env f with
    | Except.error e => ([], some e)
    | Except.ok us =>
        match uploadLoop env fs with
        | (rest, exc) => (us ++ rest, exc)

/-- The uploads contributed by one entry of the model directory when
its loop iteration does not raise. -/
def entryUploads (env : Env) (f : String) : List S3Upload :=
  match uploadOne env f with
  | Except.ok us => us
  | Except.error _ => []

/-- Python truthiness of the ec2 variable (None or True). -/
def pyTruthy : Option Bool → Bool
  | none => false
  | some b => b

/-- The effects of the body of the main try block. -/
structure MainOut where
  trainCmd : Option (List JVal)
  printedComplete : Bool
  uploads : List S3Upload
  exc : Option PyExc

/-- train_cmd = [python_executable, training_script] + default_params
+ cmd_args: the full argv handed to the subprocess. -/
def buildTrainCmd (env : Env) (training_params : List (String × JVal)) : List JVal :=
  (env.pythonExecutable :: training_script :: default_params).map JVal.str
    ++ _hyperparameters_to_cmd_args training_params

/-- The part of the main try block after the hyperparameters have been
loaded: build the training command, run it, print "Training
complete.", and in ec2 mode upload the model artifacts. -/
def mainBodyLoaded (env : Env) (ec2 : Option Bool)
    (training_params : List (String × JVal)) : MainOut :=
  match _run (buildTrainCmd env training_params) env.returnCode env.stderrText with
  | Except.error e => ⟨some (buildTrainCmd env training_params), false, [], some e⟩
  | Except.ok _ =>
      if pyTruthy ec2 then
        match uploadLoop env env.modelEntries with
        | (ups, some e) => ⟨some (buildTrainCmd env training_params), true, ups, some e⟩
        | (ups, none) => ⟨some (buildTrainCmd env training_params), true, ups, none⟩
      else
        ⟨some (buildTrainCmd env training_params), true, [], none⟩

/-- The body of the main try block: load the hyperparameters (whose
failure raises before anything else happens), then continue with the
loaded object. -/
def mainBody (env : Env) (ec2 : Option Bool) : MainOut :=
  match env.hyperparamsLoad with
  | Except.error m => ⟨none, false, [], some (PyExc.jsonError m)⟩
  | Except.ok training_params => mainBodyLoaded env ec2 training_params

/-- How the process ends: sys.exit(code), or an exception raised
outside the try block propagating uncaught (Python then terminates
with its default status for an uncaught exception, which is not a
sys.exit status). -/
inductive Termination where
  | exited (code : Int)
  | uncaughtExc (step : BStep)
  deriving DecidableEq

/-- The full observable trace of one run of the train script. -/
structure Trace where
  s3Constructed : Bool
  dirsCreated : List String
  downloads : List S3Download
  movedHyperparams : Option (String × String)
  ec2Flag : Option Bool
  trainCmd : Option (List JVal)
  printedComplete : Bool
  uploads : List S3Upload
  caughtExc : Option PyExc
  failureFile : Option String
  termination : Termination

/-- The text written to the failure file by the exception handler. -/
def failureFileContent (e : PyExc) (trc : String) : String :=
  "Exception during training: " ++ pyExcMessage e ++ "\n" ++ trc

/-- The whole script: the module-level bootstrap (whose exception, if
any, is uncaught), then the main try block; an exception of the main
body is caught, written to the failure file under the output path and
answered with sys.exit(255); otherwise sys.exit(0). -/
def trainScript (env : Env) : Trace :=
  match (bootstrap env).exc with
  | some step =>
      ⟨(bootstrap env).s3Constructed, (bootstrap env).dirsCreated,
       (bootstrap env).downloads, (bootstrap env).movedHyperparams, (bootstrap env).ec2,
       none, false, [], none, none, Termination.uncaughtExc step⟩
  | none =>
      match (mainBody env (bootstrap env).ec2).exc with
      | none =>
          ⟨(bootstrap env).s3Constructed, (bootstrap env).dirsCreated,
           (bootstrap env).downloads, (bootstrap env).movedHyperparams, (bootstrap env).ec2,
           (mainBody env (bootstrap env).ec2).trainCmd,
           (mainBody env (bootstrap env).ec2).printedComplete,
           (mainBody env (bootstrap env).ec2).uploads,
           none, none, Termination.exited 0⟩
      | some e =>
          ⟨(bootstrap env).s3Constructed, (bootstrap env).dirsCreated,
           (bootstrap env).downloads, (bootstrap env).movedHyperparams, (bootstrap env).ec2,
           (mainBody env (bootstrap env).ec2).trainCmd,
           (mainBody env (bootstrap env).ec2).printedComplete,
           (mainBody env (bootstrap env).ec2).uploads,
           some e, some (failureFileContent e env.tracebackText), Termination.exited 255⟩

/-- The SageMaker SDK calls made by the code cells of the
demonstration notebook. -/
inductive SdkCall where
  | session
  | defaultBucket
  | uploadData
  | getCallerIdentity
  | fit
  | deploy
  | predict
  | deleteEndpoint
  deriving DecidableEq

/-- The SDK calls of the notebook, in cell order: the session cell
(sage.Session, sess.default_bucket), the upload cell
(sess.upload_data), the ECR-image cell (sts get_caller_identity), the
training cell (estimator.fit), the deployment cell (estimator.deploy),
the prediction cell (predictor.predict) and the cleanup cell
(predictor.delete_endpoint). -/
def notebookSdkCalls : List SdkCall :=
  [SdkCall.session, SdkCall.defaultBucket, SdkCall.uploadData,
   SdkCall.getCallerIdentity, SdkCall.fit, SdkCall.deploy,
   SdkCall.predict, SdkCall.deleteEndpoint]

/-- The five workflow calls the demonstration sequences: upload,
train, deploy, predict, delete. -/
def isWorkflowCall : SdkCall → Bool
  | SdkCall.uploadData => true
  | SdkCall.fit => true
  | SdkCall.deploy => true
  | SdkCall.predict => true
  | SdkCall.deleteEndpoint => true
  | _ => false

/-- A typical managed-platform environment: /opt/ml/input is mounted,
the hyperparameters parse to the one pair the notebook passes, and the
training subprocess succeeds. -/
def envManaged : Env where
  optMlInputDirExists := true
  bootstrapFail := none
  s3keys := ⟨"bkt", "cifar-data"⟩
  hyperparamsLoad := Except.ok [("train-steps", JVal.str "1")]
  pythonExecutable := "/usr/bin/python"
  returnCode := 0
  stderrText := ""
  tracebackText := "Traceback (most recent call last)"
  modelEntries := []
  servoDirs := []
  servoPb := fun _ => []

/-- A manual-variant (bare-VM) environment: /opt/ml/input absent at
startup, the bootstrap succeeds, the training subprocess succeeds, and
the model directory holds a checkpoint file, the eval directory and
the export directory. -/
def envEc2 : Env where
  optMlInputDirExists := false
  bootstrapFail := none
  s3keys := ⟨"bkt", "cifar-data"⟩
  hyperparamsLoad := Except.ok [("train-steps", JVal.str "1")]
  pythonExecutable := "/usr/bin/python"
  returnCode := 0
  stderrText := ""
  tracebackText := "Traceback (most recent call last)"
  modelEntries := ["/opt/ml/model/checkpoint", "/opt/ml/model/eval", "/opt/ml/model/export"]
  servoDirs := ["1594991374"]
  servoPb := fun d => ["/opt/ml/model/export/Servo/" ++ d ++ "/saved_model.pb"]

/-- A manual-variant environment whose Servo directory listing is
empty, so the upload block raises IndexError after a successful
training run. -/
def envServoEmpty : Env := { envEc2 with servoDirs := [] }

/-- A manual-variant environment whose bootstrap fails while reading
s3keys.json. -/
def envBootFail : Env := { envEc2 with bootstrapFail := some BStep.readKeys }

/-- A managed environment whose hyperparameters object carries a
non-string value: the integer 1 passed as a hyperparameter value. -/
def envNonString : Env :=
  { envManaged with hyperparamsLoad := Except.ok [("train-steps", JVal.num 1)] }

/-- A managed environment whose training subprocess exits with code 1. -/
def envRunFails : Env := { envManaged with returnCode := 1, stderrText := "boom" }

/-- The training command built in envRunFails. -/
def cmdRunFails : List JVal :=
  [JVal.str "/usr/bin/python", JVal.str "cifar10.py",
   JVal.str "--model-dir", JVal.str "/opt/ml/model",
   JVal.str "--train-steps", JVal.str "1"]

example : pyLastComponent "/opt/ml/model/checkpoint" = "checkpoint" := rfl

example : _hyperparameters_to_cmd_args [("train-steps", JVal.str "1")]
    = [JVal.str "--train-steps", JVal.str "1"] := rfl

example : (trainScript envManaged).termination = Termination.exited 0 := rfl

example : (trainScript envManaged).trainCmd =
    some [JVal.str "/usr/bin/python", JVal.str "cifar10.py",
          JVal.str "--model-dir", JVal.str "/opt/ml/model",
          JVal.str "--train-steps", JVal.str "1"] := rfl

example : (trainScript envEc2).uploads =
    [⟨"/opt/ml/model/checkpoint", "bkt", "cifar_results/checkpoint"⟩,
     ⟨"/opt/ml/model/export/Servo/1594991374/saved_model.pb", "bkt",
      "cifar_results/saved_model.pb"⟩] := rfl

example : (trainScript envEc2).dirsCreated = bootstrapDirs := rfl

example : (trainScript envEc2).termination = Termination.exited 0 := rfl

lemma hyper_args_foldl (hp : List (String × JVal)) (acc : List JVal) :
    hp.foldl (fun l kv => l ++ [JVal.str ("--" ++ kv.fst), kv.snd]) acc
      = acc ++ hp.flatMap (fun kv => [JVal.str ("--" ++ kv.fst), kv.snd]) := by
  induction hp generalizing acc with
  | nil => simp
  | cons kv t ih => simp [List.foldl_cons, ih, List.append_assoc]

lemma hyper_args_eq_flatMap (hp : List (String × JVal)) :
    _hyperparameters_to_cmd_args hp
      = hp.flatMap (fun kv => [JVal.str ("--" ++ kv.fst), kv.snd]) := by
  simpa using hyper_args_foldl hp []

lemma hyper_args_length (hp : List (String × JVal)) :
    (_hyperparameters_to_cmd_args hp).length = 2 * hp.length := by
  rw [hyper_args_eq_flatMap]
  induction hp with
  | nil => rfl
  | cons kv t ih =>
      have hstep : (kv :: t).flatMap (fun kv => [JVal.str ("--" ++ kv.fst), kv.snd])
          = [JVal.str ("--" ++ kv.fst), kv.snd]
            ++ t.flatMap (fun kv => [JVal.str ("--" ++ kv.fst), kv.snd]) := rfl
      rw [hstep, List.length_append, ih]
      simp only [List.length_cons, List.length_nil]
      omega

lemma hyper_args_allStr (hp : List (String × JVal)) :
    (_hyperparameters_to_cmd_args hp).all JVal.isStr
      = hp.all (fun kv => kv.snd.isStr) := by
  rw [hyper_args_eq_flatMap]
  induction hp with
  | nil => rfl
  | cons kv t ih =>
      simp [List.flatMap_cons, List.all_append, ih, JVal.isStr]

lemma buildTrainCmd_allStr (env : Env) (hp : List (String × JVal)) :
    (buildTrainCmd env hp).all JVal.isStr = hp.all (fun kv => kv.snd.isStr) := by
  simp [buildTrainCmd, List.all_append, hyper_args_allStr, JVal.isStr]

lemma run_ok_iff (cmd : List JVal) (rc : Int) (err : String)
    (h : cmd.all JVal.isStr = true) :
    _run cmd rc err = Except.ok () ↔ rc = 0 := by
  have hf : cmd.find? (fun v => !v.isStr) = none := by
    rw [List.find?_eq_none]
    intro x hx
    rw [List.all_eq_true] at h
    simp [h x hx]
  unfold _run
  rw [hf]
  by_cases hrc : rc = 0 <;> simp [hrc]

lemma run_error_iff (cmd : List JVal) (rc : Int) (err : String)
    (h : cmd.all JVal.isStr = true) :
    (∃ e, _run cmd rc err = Except.error e) ↔ rc ≠ 0 := by
  have hf : cmd.find? (fun v => !v.isStr) = none := by
    rw [List.find?_eq_none]
    intro x hx
    rw [List.all_eq_true] at h
    simp [h x hx]
  unfold _run
  rw [hf]
  by_cases hrc : rc = 0 <;> simp [hrc]

lemma run_error_of_nonstr (cmd : List JVal) (rc : Int) (err : String)
    (h : cmd.all JVal.isStr = false) :
    ∃ v, JVal.isStr v = false ∧ _run cmd rc err = Except.error (PyExc.typeError v) := by
  have hs : (cmd.find? (fun v => !v.isStr)).isSome = true := by
    rw [List.find?_isSome]
    by_contra hc
    push_neg at hc
    have : cmd.all JVal.isStr = true := by
      rw [List.all_eq_true]
      intro x hx
      have := hc x hx
      simpa using this
    rw [h] at this
    cases this
  obtain ⟨v, hv⟩ := Option.isSome_iff_exists.mp hs
  refine ⟨v, ?_, ?_⟩
  · have := List.find?_some hv
    simpa using this
  · unfold _run
    rw [hv]

lemma run_ok_allStr (cmd : List JVal) (rc : Int) (err : String)
    (h : _run cmd rc err = Except.ok ()) :
    cmd.all JVal.isStr = true ∧ rc = 0 := by
  unfold _run at h
  cases hf : cmd.find? (fun v => !v.isStr) with
  | some v => rw [hf] at h; cases h
  | none =>
      rw [hf] at h
      constructor
      · rw [List.all_eq_true]
        intro x hx
        have := List.find?_eq_none.mp hf x hx
        simpa using this
      · by_contra hrc
        rw [if_pos hrc] at h
        cases h

lemma bootstrap_skip (env : Env) (h : env.optMlInputDirExists = true) :
    bootstrap env = ⟨false, [], [], none, none, none⟩ := by
  simp [bootstrap, h]

lemma bootstrap_full (env : Env) (h1 : env.optMlInputDirExists = false)
    (h2 : env.bootstrapFail = none) :
    bootstrap env = ⟨true, bootstrapDirs, bootstrapDownloads env.s3keys,
      some ("/opt/ml/code/hyperparameters.json", "/opt/ml/input/config"),
      some true, none⟩ := by
  simp [bootstrap, h1, h2]

lemma bootstrap_fail_exc (env : Env) (step : BStep)
    (h1 : env.optMlInputDirExists = false) (h2 : env.bootstrapFail = some step) :
    (bootstrap env).exc = some step := by
  cases step <;> simp [bootstrap, h1, h2]

lemma trainScript_uncaught (env : Env) (step : BStep)
    (h : (bootstrap env).exc = some step) :
    (trainScript env).failureFile = none ∧
    (trainScript env).caughtExc = none ∧
    (trainScript env).trainCmd = none ∧
    (trainScript env).uploads = [] ∧
    (trainScript env).termination = Termination.uncaughtExc step := by
  unfold trainScript
  rw [h]
  exact ⟨rfl, rfl, rfl, rfl, rfl⟩

lemma trainScript_bootstrap_fields (env : Env) :
    (trainScript env).s3Constructed = (bootstrap env).s3Constructed ∧
    (trainScript env).dirsCreated = (bootstrap env).dirsCreated ∧
    (trainScript env).downloads = (bootstrap env).downloads ∧
    (trainScript env).movedHyperparams = (bootstrap env).movedHyperparams ∧
    (trainScript env).ec2Flag = (bootstrap env).ec2 := by
  unfold trainScript
  cases hb : (bootstrap env).exc with
  | some step => exact ⟨rfl, rfl, rfl, rfl, rfl⟩
  | none =>
      cases hm : (mainBody env (bootstrap env).ec2).exc with
      | none => exact ⟨rfl, rfl, rfl, rfl, rfl⟩
      | some e => exact ⟨rfl, rfl, rfl, rfl, rfl⟩

lemma trainScript_main_fields (env : Env) (h : (bootstrap env).exc = none) :
    (trainScript env).trainCmd = (mainBody env (bootstrap env).ec2).trainCmd ∧
    (trainScript env).printedComplete
      = (mainBody env (bootstrap env).ec2).printedComplete ∧
    (trainScript env).uploads = (mainBody env (bootstrap env).ec2).uploads ∧
    (trainScript env).caughtExc = (mainBody env (bootstrap env).ec2).exc := by
  unfold trainScript
  rw [h]
  cases hm : (mainBody env (bootstrap env).ec2).exc with
  | none => exact ⟨rfl, rfl, rfl, rfl⟩
  | some e => exact ⟨rfl, rfl, rfl, rfl⟩

lemma trainScript_success (env : Env) (h : (bootstrap env).exc = none)
    (hm : (mainBody env (bootstrap env).ec2).exc = none) :
    (trainScript env).failureFile = none ∧
    (trainScript env).termination = Termination.exited 0 := by
  unfold trainScript
  rw [h, hm]
  exact ⟨rfl, rfl⟩

lemma trainScript_caught (env : Env) (e : PyExc) (h : (bootstrap env).exc = none)
    (hm : (mainBody env (bootstrap env).ec2).exc = some e) :
    (trainScript env).failureFile = some (failureFileContent e env.tracebackText) ∧
    (trainScript env).termination = Termination.exited 255 := by
  unfold trainScript
  rw [h, hm]
  exact ⟨rfl, rfl⟩

lemma mainBody_load (env : Env) (ec2 : Option Bool) (hp : List (String × JVal))
    (hload : env.hyperparamsLoad = Except.ok hp) :
    mainBody env ec2 = mainBodyLoaded env ec2 hp := by
  unfold mainBody
  rw [hload]

lemma mainBody_jsonError (env : Env) (ec2 : Option Bool) (m : String)
    (hload : env.hyperparamsLoad = Except.error m) :
    mainBody env ec2 = ⟨none, false, [], some (PyExc.jsonError m)⟩ := by
  unfold mainBody
  rw [hload]

lemma mainBodyLoaded_trainCmd (env : Env) (ec2 : Option Bool)
    (hp : List (String × JVal)) :
    (mainBodyLoaded env ec2 hp).trainCmd = some (buildTrainCmd env hp) := by
  unfold mainBodyLoaded
  cases hr : _run (buildTrainCmd env hp) env.returnCode env.stderrText with
  | error e => rfl
  | ok u =>
      cases u
      by_cases ht : pyTruthy ec2 = true
      · rw [if_pos ht]
        cases hu : uploadLoop env env.modelEntries with
        | mk ups exc => cases exc <;> rfl
      · rw [if_neg ht]

lemma mainBodyLoaded_exc_of_run_error (env : Env) (ec2 : Option Bool)
    (hp : List (String × JVal)) (e : PyExc)
    (hr : _run (buildTrainCmd env hp) env.returnCode env.stderrText
        = Except.error e) :
    (mainBodyLoaded env ec2 hp).exc = some e ∧
    (mainBodyLoaded env ec2 hp).printedComplete = false := by
  unfold mainBodyLoaded
  rw [hr]
  exact ⟨rfl, rfl⟩

lemma mainBodyLoaded_success (env : Env) (ec2 : Option Bool)
    (hp : List (String × JVal))
    (hr : _run (buildTrainCmd env hp) env.returnCode env.stderrText = Except.ok ())
    (hup : pyTruthy ec2 = true → (uploadLoop env env.modelEntries).2 = none) :
    (mainBodyLoaded env ec2 hp).exc = none ∧
    (mainBodyLoaded env ec2 hp).printedComplete = true := by
  unfold mainBodyLoaded
  rw [hr]
  by_cases ht : pyTruthy ec2 = true
  · rw [if_pos ht]
    have hn := hup ht
    cases hu : uploadLoop env env.modelEntries with
    | mk ups exc =>
        rw [hu] at hn
        cases exc with
        | none => exact ⟨rfl, rfl⟩
        | some e => simp at hn
  · rw [if_neg ht]
    exact ⟨rfl, rfl⟩

lemma mainBodyLoaded_uploads_ec2 (env : Env) (hp : List (String × JVal))
    (ups : List S3Upload)
    (hr : _run (buildTrainCmd env hp) env.returnCode env.stderrText = Except.ok ())
    (hu : uploadLoop env env.modelEntries = (ups, none)) :
    (mainBodyLoaded env (some true) hp).uploads = ups ∧
    (mainBodyLoaded env (some true) hp).exc = none := by
  unfold mainBodyLoaded
  rw [hr, hu]
  exact ⟨rfl, rfl⟩

lemma mainBodyLoaded_exc_none_run_ok (env : Env) (ec2 : Option Bool)
    (hp : List (String × JVal))
    (h : (mainBodyLoaded env ec2 hp).exc = none) :
    _run (buildTrainCmd env hp) env.returnCode env.stderrText = Except.ok () := by
  unfold mainBodyLoaded at h
  cases hr : _run (buildTrainCmd env hp) env.returnCode env.stderrText with
  | error e =>
      rw [hr] at h
      have h2 : (some e : Option PyExc) = none := h
      exact Option.noConfusion h2
  | ok u => cases u; rfl

lemma mainBodyLoaded_none_uploads (env : Env) (hp : List (String × JVal)) :
    (mainBodyLoaded env none hp).uploads = [] := by
  unfold mainBodyLoaded
  cases hr : _run (buildTrainCmd env hp) env.returnCode env.stderrText with
  | error e => rfl
  | ok u => cases u; rfl

lemma mainBody_none_uploads (env : Env) : (mainBody env none).uploads = [] := by
  cases hl : env.hyperparamsLoad with
  | error m => rw [mainBody_jsonError env none m hl]
  | ok hp => rw [mainBody_load env none hp hl, mainBodyLoaded_none_uploads]

lemma uploadOne_plain (env : Env) (f : String)
    (h1 : f ≠ "/opt/ml/model/eval") (h2 : f ≠ "/opt/ml/model/export") :
    uploadOne env f = Except.ok [⟨osPathJoin model_path f, env.s3keys.bucket,
      "cifar_results/" ++ pyLastComponent f⟩] := by
  unfold uploadOne
  rw [if_pos]
  simp [h1, h2]

lemma uploadOne_eval (env : Env) :
    uploadOne env "/opt/ml/model/eval" = Except.ok [] := rfl

lemma uploadOne_export (env : Env) (d : String) (ds : List String)
    (pb : String) (pbs : List String)
    (hd : env.servoDirs = d :: ds) (hpb : env.servoPb d = pb :: pbs) :
    uploadOne env "/opt/ml/model/export"
      = Except.ok [⟨pb, env.s3keys.bucket, "cifar_results/" ++ pyLastComponent pb⟩] := by
  unfold uploadOne
  rw [if_neg (by simp), if_pos rfl, hd]
  simp [hpb]

lemma uploadLoop_ok (env : Env) (fs : List String)
    (h : ∀ f ∈ fs, ∃ us, uploadOne env f = Except.ok us) :
    uploadLoop env fs = (fs.flatMap (entryUploads env), none) := by
  induction fs with
  | nil => rfl
  | cons f t ih =>
      obtain ⟨us, hus⟩ := h f (List.mem_cons_self f t)
      have ht := ih (fun g hg => h g (List.mem_cons_of_mem f hg))
      have hstep : (f :: t).flatMap (entryUploads env)
          = entryUploads env f ++ t.flatMap (entryUploads env) := rfl
      have hent : entryUploads env f = us := by
        unfold entryUploads
        rw [hus]
      unfold uploadLoop
      rw [hus, ht, hstep, hent]

/-- C1: for every run in which the main body raises an exception (for
example when the training subprocess exits with a nonzero return
code), the script writes the failure error file whose content starts
with "Exception during training: " followed by the exception message
and the traceback, and terminates with exit code 255. -/
theorem C1_failure_file_on_exception (env : Env) (e : PyExc)
    (h : (trainScript env).caughtExc = some e) :
    (trainScript env).failureFile = some (failureFileContent e env.tracebackText) ∧
    (∃ rest, (trainScript env).failureFile
        = some ("Exception during training: " ++ rest)) ∧
    (trainScript env).termination = Termination.exited 255 := by
  cases hb : (bootstrap env).exc with
  | some step =>
      have hnone := (trainScript_uncaught env step hb).2.1
      rw [h] at hnone
      exact Option.noConfusion hnone
  | none =>
      have hce := (trainScript_main_fields env hb).2.2.2
      rw [h] at hce
      have hc := trainScript_caught env e hb hce.symm
      refine ⟨hc.1, ⟨pyExcMessage e ++ ("\n" ++ env.tracebackText), ?_⟩, hc.2⟩
      rw [hc.1]
      unfold failureFileContent
      rw [String.append_assoc, String.append_assoc]

/-- C1 witness: a concrete managed-mode run whose training subprocess
exits with return code 1. -/
theorem C1_witness :
    (trainScript envRunFails).caughtExc
        = some (PyExc.trainFailed 1 cmdRunFails "boom") ∧
    ((trainScript envRunFails).failureFile
        = some (failureFileContent (PyExc.trainFailed 1 cmdRunFails "boom")
            envRunFails.tracebackText) ∧
     (∃ rest, (trainScript envRunFails).failureFile
        = some ("Exception during training: " ++ rest)) ∧
     (trainScript envRunFails).termination = Termination.exited 255) :=
  ⟨rfl, C1_failure_file_on_exception envRunFails
      (PyExc.trainFailed 1 cmdRunFails "boom") rfl⟩

/-- C2 counterexample: a manual-variant run whose training subprocess
returns 0 and prints "Training complete.", yet the script writes the
failure file and exits 255, because the upload block raises IndexError
on the empty Servo directory listing.  This refutes the unconditional
"writes no failure file, and exits with code 0" part of the claim. -/
theorem C2_counterexample :
    envServoEmpty.returnCode = 0 ∧
    (trainScript envServoEmpty).printedComplete = true ∧
    (trainScript envServoEmpty).failureFile.isSome = true ∧
    (trainScript envServoEmpty).termination = Termination.exited 255 :=
  ⟨rfl, rfl, rfl, rfl⟩

/-- C2 (amended): _run raises iff the subprocess exits nonzero (for
the all-string command actually spawned); when the subprocess returns
0, _run returns normally and the program prints "Training complete.",
and - provided the manual-variant upload block, when reached, raises
no exception - no failure file is written and the script exits 0. -/
theorem C2_run_iff_and_success (env : Env) (hp : List (String × JVal))
    (hload : env.hyperparamsLoad = Except.ok hp)
    (hstr : hp.all (fun kv => kv.snd.isStr) = true)
    (hboot : (bootstrap env).exc = none)
    (hup : pyTruthy (bootstrap env).ec2 = true →
        (uploadLoop env env.modelEntries).2 = none) :
    ((∃ e, _run (buildTrainCmd env hp) env.returnCode env.stderrText
        = Except.error e) ↔ env.returnCode ≠ 0) ∧
    (env.returnCode = 0 →
      _run (buildTrainCmd env hp) env.returnCode env.stderrText = Except.ok () ∧
      (trainScript env).printedComplete = true ∧
      (trainScript env).failureFile = none ∧
      (trainScript env).termination = Termination.exited 0) := by
  have hall : (buildTrainCmd env hp).all JVal.isStr = true := by
    rw [buildTrainCmd_allStr]
    exact hstr
  constructor
  · exact run_error_iff _ _ _ hall
  · intro hrc
    have hok : _run (buildTrainCmd env hp) env.returnCode env.stderrText
        = Except.ok () := by
      rw [run_ok_iff _ _ _ hall]
      exact hrc
    have hmb := mainBodyLoaded_success env (bootstrap env).ec2 hp hok hup
    have hexc : (mainBody env (bootstrap env).ec2).exc = none := by
      rw [mainBody_load env _ hp hload]
      exact hmb.1
    have hpr : (trainScript env).printedComplete = true := by
      rw [(trainScript_main_fields env hboot).2.1, mainBody_load env _ hp hload]
      exact hmb.2
    have hsucc := trainScript_success env hboot hexc
    exact ⟨hok, hpr, hsucc.1, hsucc.2⟩

/-- C2 witness: a concrete managed-mode run with return code 0. -/
theorem C2_witness :
    envManaged.hyperparamsLoad = Except.ok [("train-steps", JVal.str "1")] ∧
    [("train-steps", JVal.str "1")].all (fun kv => kv.snd.isStr) = true ∧
    (bootstrap envManaged).exc = none ∧
    (((∃ e, _run (buildTrainCmd envManaged [("train-steps", JVal.str "1")])
          envManaged.returnCode envManaged.stderrText = Except.error e)
        ↔ envManaged.returnCode ≠ 0) ∧
     (envManaged.returnCode = 0 →
        _run (buildTrainCmd envManaged [("train-steps", JVal.str "1")])
          envManaged.returnCode envManaged.stderrText = Except.ok () ∧
        (trainScript envManaged).printedComplete = true ∧
        (trainScript envManaged).failureFile = none ∧
        (trainScript envManaged).termination = Termination.exited 0)) :=
  ⟨rfl, rfl, rfl,
   C2_run_iff_and_success envManaged [("train-steps", JVal.str "1")]
     rfl rfl rfl (fun _ => rfl)⟩

/-- C3: for every hyperparameters object read, the executed training
command is [sys.executable, "cifar10.py", "--model-dir",
"/opt/ml/model"] followed, for each key-value pair in iteration order,
by exactly the flag "--(key)" and the unmodified value; the appended
argument list has exactly twice as many elements as the object has
keys. -/
theorem C3_train_cmd (env : Env) (hp : List (String × JVal))
    (hload : env.hyperparamsLoad = Except.ok hp)
    (hboot : (bootstrap env).exc = none) :
    (trainScript env).trainCmd =
      some ([JVal.str env.pythonExecutable, JVal.str "cifar10.py",
             JVal.str "--model-dir", JVal.str "/opt/ml/model"]
        ++ _hyperparameters_to_cmd_args hp) ∧
    _hyperparameters_to_cmd_args hp
      = hp.flatMap (fun kv => [JVal.str ("--" ++ kv.fst), kv.snd]) ∧
    (_hyperparameters_to_cmd_args hp).length = 2 * hp.length := by
  refine ⟨?_, hyper_args_eq_flatMap hp, hyper_args_length hp⟩
  rw [(trainScript_main_fields env hboot).1, mainBody_load env _ hp hload,
    mainBodyLoaded_trainCmd]
  rfl

/-- C3 witness: the concrete managed-mode run with one hyperparameter. -/
theorem C3_witness :
    envManaged.hyperparamsLoad = Except.ok [("train-steps", JVal.str "1")] ∧
    (bootstrap envManaged).exc = none ∧
    ((trainScript envManaged).trainCmd =
      some ([JVal.str envManaged.pythonExecutable, JVal.str "cifar10.py",
             JVal.str "--model-dir", JVal.str "/opt/ml/model"]
        ++ _hyperparameters_to_cmd_args [("train-steps", JVal.str "1")]) ∧
     _hyperparameters_to_cmd_args [("train-steps", JVal.str "1")]
      = [("train-steps", JVal.str "1")].flatMap
          (fun kv => [JVal.str ("--" ++ kv.fst), kv.snd]) ∧
     (_hyperparameters_to_cmd_args [("train-steps", JVal.str "1")]).length
      = 2 * [("train-steps", JVal.str "1")].length) :=
  ⟨rfl, rfl, C3_train_cmd envManaged [("train-steps", JVal.str "1")] rfl rfl⟩

/-- C4: the script follows the container contract directory layout:
hyperparameters are read from /opt/ml/input/config/hyperparameters.json,
the single input channel is named training and lives at
/opt/ml/input/data/training, and the model output directory
/opt/ml/model is passed as the --model-dir default argument. -/
theorem C4_container_paths :
    param_path = "/opt/ml/input/config/hyperparameters.json" ∧
    channel_name = "training" ∧
    training_path = "/opt/ml/input/data/training" ∧
    model_path = "/opt/ml/model" ∧
    default_params = ["--model-dir", "/opt/ml/model"] ∧
    output_path = "/opt/ml/output" ∧
    input_path = "/opt/ml/input/data" :=
  ⟨rfl, rfl, rfl, rfl, rfl, rfl, rfl⟩

/-- C5: when /opt/ml/input does not exist at startup and the bootstrap
succeeds, the script creates the six directories in order, downloads
exactly eval.tfrecords, train.tfrecords and validation.tfrecords from
the bucket and key prefix of s3keys.json into
/opt/ml/input/data/training, and moves /opt/ml/code/hyperparameters.json
into /opt/ml/input/config. -/
theorem C5_bootstrap_effects (env : Env)
    (h1 : env.optMlInputDirExists = false)
    (h2 : env.bootstrapFail = none) :
    (trainScript env).s3Constructed = true ∧
    (trainScript env).dirsCreated =
      ["/opt/ml/output", "/opt/ml/input", "/opt/ml/model",
       "/opt/ml/input/config", "/opt/ml/input/data",
       "/opt/ml/input/data/training"] ∧
    (trainScript env).downloads =
      [⟨env.s3keys.bucket, env.s3keys.datakey ++ "/eval.tfrecords",
          "/opt/ml/input/data/training/eval.tfrecords"⟩,
       ⟨env.s3keys.bucket, env.s3keys.datakey ++ "/train.tfrecords",
          "/opt/ml/input/data/training/train.tfrecords"⟩,
       ⟨env.s3keys.bucket, env.s3keys.datakey ++ "/validation.tfrecords",
          "/opt/ml/input/data/training/validation.tfrecords"⟩] ∧
    (trainScript env).movedHyperparams
      = some ("/opt/ml/code/hyperparameters.json", "/opt/ml/input/config") ∧
    (trainScript env).ec2Flag = some true := by
  have hb := bootstrap_full env h1 h2
  obtain ⟨f1, f2, f3, f4, f5⟩ := trainScript_bootstrap_fields env
  rw [f1, f2, f3, f4, f5, hb]
  exact ⟨rfl, rfl, rfl, rfl, rfl⟩

/-- C5 witness: the concrete manual-variant run. -/
theorem C5_witness :
    envEc2.optMlInputDirExists = false ∧
    envEc2.bootstrapFail = none ∧
    ((trainScript envEc2).s3Constructed = true ∧
     (trainScript envEc2).dirsCreated =
      ["/opt/ml/output", "/opt/ml/input", "/opt/ml/model",
       "/opt/ml/input/config", "/opt/ml/input/data",
       "/opt/ml/input/data/training"] ∧
     (trainScript envEc2).downloads =
      [⟨envEc2.s3keys.bucket, envEc2.s3keys.datakey ++ "/eval.tfrecords",
          "/opt/ml/input/data/training/eval.tfrecords"⟩,
       ⟨envEc2.s3keys.bucket, envEc2.s3keys.datakey ++ "/train.tfrecords",
          "/opt/ml/input/data/training/train.tfrecords"⟩,
       ⟨envEc2.s3keys.bucket, envEc2.s3keys.datakey ++ "/validation.tfrecords",
          "/opt/ml/input/data/training/validation.tfrecords"⟩] ∧
     (trainScript envEc2).movedHyperparams
      = some ("/opt/ml/code/hyperparameters.json", "/opt/ml/input/config") ∧
     (trainScript envEc2).ec2Flag = some true) :=
  ⟨rfl, rfl, C5_bootstrap_effects envEc2 rfl rfl⟩

/-- C6: in the manual variant, after a successful training run, the
uploads are exactly the per-entry contributions of the model directory
listing: every entry other than eval and export is uploaded under key
cifar_results/(basename); the export entry contributes the first .pb
file of the first listed Servo subdirectory, uploaded under
cifar_results/(its basename); the eval entry contributes no upload. -/
theorem C6_model_uploads (env : Env) (hp : List (String × JVal))
    (h1 : env.optMlInputDirExists = false)
    (h2 : env.bootstrapFail = none)
    (hload : env.hyperparamsLoad = Except.ok hp)
    (hstr : hp.all (fun kv => kv.snd.isStr) = true)
    (hrc : env.returnCode = 0)
    (hserv : ∀ d ds, env.servoDirs = d :: ds → env.servoPb d ≠ [])
    (hexp : "/opt/ml/model/export" ∈ env.modelEntries → env.servoDirs ≠ []) :
    (trainScript env).uploads = env.modelEntries.flatMap (entryUploads env) ∧
    (∀ f, f ≠ "/opt/ml/model/eval" → f ≠ "/opt/ml/model/export" →
        entryUploads env f
          = [⟨osPathJoin model_path f, env.s3keys.bucket,
              "cifar_results/" ++ pyLastComponent f⟩]) ∧
    (∀ d ds pb pbs, env.servoDirs = d :: ds → env.servoPb d = pb :: pbs →
        entryUploads env "/opt/ml/model/export"
          = [⟨pb, env.s3keys.bucket, "cifar_results/" ++ pyLastComponent pb⟩]) ∧
    entryUploads env "/opt/ml/model/eval" = [] := by
  have hone : ∀ f ∈ env.modelEntries, ∃ us, uploadOne env f = Except.ok us := by
    intro f hf
    by_cases he : f = "/opt/ml/model/eval"
    · exact ⟨[], by rw [he]; exact uploadOne_eval env⟩
    by_cases hx : f = "/opt/ml/model/export"
    · subst hx
      have hne := hexp hf
      cases hd : env.servoDirs with
      | nil => exact absurd hd hne
      | cons d ds =>
          have hpbne := hserv d ds hd
          cases hpbl : env.servoPb d with
          | nil => exact absurd hpbl hpbne
          | cons pb pbs =>
              exact ⟨_, uploadOne_export env d ds pb pbs hd hpbl⟩
    · exact ⟨_, uploadOne_plain env f he hx⟩
  have hb := bootstrap_full env h1 h2
  have hbx : (bootstrap env).exc = none := by rw [hb]
  have hbe : (bootstrap env).ec2 = some true := by rw [hb]
  have hall : (buildTrainCmd env hp).all JVal.isStr = true := by
    rw [buildTrainCmd_allStr]
    exact hstr
  have hok : _run (buildTrainCmd env hp) env.returnCode env.stderrText
      = Except.ok () := by
    rw [run_ok_iff _ _ _ hall]
    exact hrc
  have hu := uploadLoop_ok env env.modelEntries hone
  have hups := mainBodyLoaded_uploads_ec2 env hp
    (env.modelEntries.flatMap (entryUploads env)) hok hu
  refine ⟨?_, ?_, ?_, rfl⟩
  · rw [(trainScript_main_fields env hbx).2.2.1, mainBody_load env _ hp hload, hbe]
    exact hups.1
  · intro f hf1 hf2
    unfold entryUploads
    rw [uploadOne_plain env f hf1 hf2]
  · intro d ds pb pbs hd hpbl
    unfold entryUploads
    rw [uploadOne_export env d ds pb pbs hd hpbl]

/-- C6 witness: the concrete manual-variant run with a checkpoint
entry, the eval entry and the export entry in the model directory. -/
theorem C6_witness :
    envEc2.optMlInputDirExists = false ∧
    envEc2.bootstrapFail = none ∧
    envEc2.hyperparamsLoad = Except.ok [("train-steps", JVal.str "1")] ∧
    [("train-steps", JVal.str "1")].all (fun kv => kv.snd.isStr) = true ∧
    envEc2.returnCode = 0 ∧
    (∀ d ds, envEc2.servoDirs = d :: ds → envEc2.servoPb d ≠ []) ∧
    ("/opt/ml/model/export" ∈ envEc2.modelEntries → envEc2.servoDirs ≠ []) ∧
    ((trainScript envEc2).uploads
        = envEc2.modelEntries.flatMap (entryUploads envEc2) ∧
     (∀ f, f ≠ "/opt/ml/model/eval" → f ≠ "/opt/ml/model/export" →
        entryUploads envEc2 f
          = [⟨osPathJoin model_path f, envEc2.s3keys.bucket,
              "cifar_results/" ++ pyLastComponent f⟩]) ∧
     (∀ d ds pb pbs, envEc2.servoDirs = d :: ds → envEc2.servoPb d = pb :: pbs →
        entryUploads envEc2 "/opt/ml/model/export"
          = [⟨pb, envEc2.s3keys.bucket, "cifar_results/" ++ pyLastComponent pb⟩]) ∧
     entryUploads envEc2 "/opt/ml/model/eval" = []) := by
  have hserv : ∀ d ds, envEc2.servoDirs = d :: ds → envEc2.servoPb d ≠ [] := by
    intro d ds h
    injection h with hd hds
    subst hd
    intro hc
    exact List.noConfusion hc
  have hexp : "/opt/ml/model/export" ∈ envEc2.modelEntries →
      envEc2.servoDirs ≠ [] := fun _ hc => List.noConfusion hc
  exact ⟨rfl, rfl, rfl, rfl, rfl, hserv, hexp,
    C6_model_uploads envEc2 [("train-steps", JVal.str "1")]
      rfl rfl rfl rfl rfl hserv hexp⟩

/-- C7: the demonstration notebook performs its platform workflow
calls in the order upload, fit, deploy, predict, delete-endpoint, and
the endpoint is deleted only after the prediction was made. -/
theorem C7_notebook_order :
    notebookSdkCalls.filter isWorkflowCall
      = [SdkCall.uploadData, SdkCall.fit, SdkCall.deploy,
         SdkCall.predict, SdkCall.deleteEndpoint] ∧
    notebookSdkCalls.indexOf SdkCall.predict
      < notebookSdkCalls.indexOf SdkCall.deleteEndpoint := by
  decide

/-- C8: an exception during the manual-variant bootstrap is raised
outside the try block, so no failure file is written and the process
does not terminate through sys.exit at all (in particular not with
status 255). -/
theorem C8_bootstrap_uncaught (env : Env) (step : BStep)
    (h1 : env.optMlInputDirExists = false)
    (h2 : env.bootstrapFail = some step) :
    (trainScript env).failureFile = none ∧
    (trainScript env).termination = Termination.uncaughtExc step ∧
    ∀ c : Int, (trainScript env).termination ≠ Termination.exited c := by
  have hb := bootstrap_fail_exc env step h1 h2
  obtain ⟨f1, f2, f3, f4, f5⟩ := trainScript_uncaught env step hb
  refine ⟨f1, f5, ?_⟩
  intro c hc
  rw [f5] at hc
  exact Termination.noConfusion hc

/-- C8 witness: a manual-variant run that fails reading s3keys.json. -/
theorem C8_witness :
    envBootFail.optMlInputDirExists = false ∧
    envBootFail.bootstrapFail = some BStep.readKeys ∧
    ((trainScript envBootFail).failureFile = none ∧
     (trainScript envBootFail).termination
        = Termination.uncaughtExc BStep.readKeys ∧
     ∀ c : Int, (trainScript envBootFail).termination ≠ Termination.exited c) :=
  ⟨rfl, rfl, C8_bootstrap_uncaught envBootFail BStep.readKeys rfl rfl⟩

/-- C9: a run reaching the main body can only exit 0 when every
hyperparameter value is a string; an object containing a non-string
value makes the subprocess invocation raise TypeError, which is
caught, the failure file is written and the script exits 255. -/
theorem C9_nonstring_hyperparameter (env : Env) (hp : List (String × JVal))
    (hload : env.hyperparamsLoad = Except.ok hp)
    (hboot : (bootstrap env).exc = none) :
    ((trainScript env).termination = Termination.exited 0 →
        ∀ kv ∈ hp, kv.snd.isStr = true) ∧
    ((∃ kv ∈ hp, kv.snd.isStr = false) →
        (trainScript env).failureFile.isSome = true ∧
        (trainScript env).termination = Termination.exited 255) := by
  constructor
  · intro h0
    have hcx : (mainBody env (bootstrap env).ec2).exc = none := by
      cases hm : (mainBody env (bootstrap env).ec2).exc with
      | none => rfl
      | some e =>
          have h255 := (trainScript_caught env e hboot hm).2
          rw [h0] at h255
          injection h255 with hinj
          exact absurd hinj (by decide)
    rw [mainBody_load env _ hp hload] at hcx
    have hok := mainBodyLoaded_exc_none_run_ok env (bootstrap env).ec2 hp hcx
    have hall := (run_ok_allStr _ _ _ hok).1
    rw [buildTrainCmd_allStr] at hall
    rw [List.all_eq_true] at hall
    intro kv hkv
    simpa using hall kv hkv
  · rintro ⟨kv, hkv, hf⟩
    have hb2 : hp.all (fun kv => kv.snd.isStr) = false := by
      cases hb2 : hp.all (fun kv => kv.snd.isStr) with
      | false => rfl
      | true =>
          rw [List.all_eq_true] at hb2
          have h3 : kv.snd.isStr = true := hb2 kv hkv
          rw [hf] at h3
          cases h3
    have hallf : (buildTrainCmd env hp).all JVal.isStr = false := by
      rw [buildTrainCmd_allStr]
      exact hb2
    obtain ⟨v, hv, hrun⟩ :=
      run_error_of_nonstr _ env.returnCode env.stderrText hallf
    have hexc := (mainBodyLoaded_exc_of_run_error env (bootstrap env).ec2 hp _ hrun).1
    have hexc2 : (mainBody env (bootstrap env).ec2).exc
        = some (PyExc.typeError v) := by
      rw [mainBody_load env _ hp hload]
      exact hexc
    have hc := trainScript_caught env _ hboot hexc2
    refine ⟨?_, hc.2⟩
    rw [hc.1]
    rfl

/-- C9 witness: a managed run whose hyperparameters object carries the
integer value 1. -/
theorem C9_witness :
    envNonString.hyperparamsLoad = Except.ok [("train-steps", JVal.num 1)] ∧
    (bootstrap envNonString).exc = none ∧
    (∃ kv ∈ [("train-steps", JVal.num 1)], kv.snd.isStr = false) ∧
    (((trainScript envNonString).termination = Termination.exited 0 →
        ∀ kv ∈ [("train-steps", JVal.num 1)], kv.snd.isStr = true) ∧
     ((∃ kv ∈ [("train-steps", JVal.num 1)], kv.snd.isStr = false) →
        (trainScript envNonString).failureFile.isSome = true ∧
        (trainScript envNonString).termination = Termination.exited 255)) :=
  ⟨rfl, rfl, ⟨("train-steps", JVal.num 1), List.mem_singleton.mpr rfl, rfl⟩,
    C9_nonstring_hyperparameter envNonString [("train-steps", JVal.num 1)] rfl rfl⟩

/-- C10: when /opt/ml/input exists at startup, the script constructs
no S3 client, creates no directories, performs no download and no
upload, does not move the hyperparameters file, and the ec2 flag
remains None. -/
theorem C10_managed_no_s3 (env : Env) (h : env.optMlInputDirExists = true) :
    (trainScript env).s3Constructed = false ∧
    (trainScript env).dirsCreated = [] ∧
    (trainScript env).downloads = [] ∧
    (trainScript env).uploads = [] ∧
    (trainScript env).movedHyperparams = none ∧
    (trainScript env).ec2Flag = none := by
  have hb := bootstrap_skip env h
  have hbx : (bootstrap env).exc = none := by rw [hb]
  have hbe : (bootstrap env).ec2 = none := by rw [hb]
  obtain ⟨f1, f2, f3, f4, f5⟩ := trainScript_bootstrap_fields env
  refine ⟨?_, ?_, ?_, ?_, ?_, ?_⟩
  · rw [f1, hb]
  · rw [f2, hb]
  · rw [f3, hb]
  · rw [(trainScript_main_fields env hbx).2.2.1, hbe, mainBody_none_uploads]
  · rw [f4, hb]
  · rw [f5, hb]

/-- C10 witness: the concrete managed-mode run. -/
theorem C10_witness :
    envManaged.optMlInputDirExists = true ∧
    ((trainScript envManaged).s3Constructed = false ∧
     (trainScript envManaged).dirsCreated = [] ∧
     (trainScript envManaged).downloads = [] ∧
     (trainScript envManaged).uploads = [] ∧
     (trainScript envManaged).movedHyperparams = none ∧
     (trainScript envManaged).ec2Flag = none) :=
  ⟨rfl, C10_managed_no_s3 envManaged rfl⟩
